import Mathlib

/-!
Verification of `tensorflow/contrib/gan/python/namedtuples.py`.

The module declares six `collections.namedtuple` subclasses.  A namedtuple
class is fully determined by its class name and its ordered list of field
names; an instance is the class name together with the ordered tuple of
stored values.  Field values are opaque Python objects, modelled by an
arbitrary type `α`.  Construction with the wrong number of values raises a
`TypeError`; we model that with `Except`.  Attribute access by field name
returns the value stored at the field's index.  Equality of namedtuple
instances is inherited from `tuple`: element-wise comparison of the stored
values, ignoring the class.
-/

/-- A namedtuple class schema: the class name and the ordered field names. -/
structure Schema where
  name : String
  fields : List String
deriving DecidableEq

/-- A namedtuple instance: its class name and the ordered tuple of values. -/
structure PyTuple (α : Type) where
  schema : String
  values : List α

/-- Index of the first occurrence of a field name in a field list, as
computed once at class-creation time for each generated property. -/
def lookupIdx (name : String) : List String → Option Nat
  | [] => none
  | f :: fs => if f = name then some 0 else (lookupIdx name fs).map (· + 1)

/-- Constructing a namedtuple instance: succeeds exactly when the number of
supplied values matches the number of declared fields, otherwise raises
(`TypeError` in Python). -/
def Schema.make {α : Type} (s : Schema) (vals : List α) : Except String (PyTuple α) :=
  if vals.length = s.fields.length then Except.ok ⟨s.name, vals⟩
  else Except.error "TypeError: arity mismatch"

/-- Attribute access by field name: look the name up in the schema's field
list and return the value stored at that index. -/
def Schema.getField {α : Type} (s : Schema) (t : PyTuple α) (f : String) : Option α :=
  (lookupIdx f s.fields).bind fun i => t.values.get? i

/-- Python equality of namedtuple instances: inherited from `tuple`, it
compares the stored value tuples element-wise and ignores the class. -/
def pyEq {α : Type} [DecidableEq α] (t1 t2 : PyTuple α) : Bool :=
  decide (t1.values = t2.values)

/-- A single field read seen as a state transition on the instance: it
returns the value and leaves the instance untouched. -/
def readFieldSt {α : Type} (s : Schema) (f : String) (t : PyTuple α) :
    Option α × PyTuple α :=
  (s.getField t f, t)

/-- Running a sequence of field reads against an instance, threading the
instance through as state. -/
def runReads {α : Type} (s : Schema) (t : PyTuple α) :
    List String → List (Option α) × PyTuple α
  | [] => ([], t)
  | f :: fs =>
    let p := readFieldSt s f t
    let rest := runReads s p.2 fs
    (p.1 :: rest.1, rest.2)

/-- The `GANModel` namedtuple: eleven fields, as declared in the source. -/
def GANModel : Schema :=
  ⟨"GANModel",
   ["generator_inputs",
    "generated_data",
    "generator_variables",
    "generator_scope",
    "generator_fn",
    "real_data",
    "discriminator_real_outputs",
    "discriminator_gen_outputs",
    "discriminator_variables",
    "discriminator_scope",
    "discriminator_fn"]⟩

/-- The `InfoGANModel` namedtuple: its field list is computed in the source
as `GANModel._fields + ('structured_generator_inputs',
'predicted_distributions')`. -/
def InfoGANModel : Schema :=
  ⟨"InfoGANModel",
   GANModel.fields ++ ["structured_generator_inputs", "predicted_distributions"]⟩

/-- The `ACGANModel` namedtuple: its field list is computed in the source as
`GANModel._fields + ('one_hot_labels',
'discriminator_real_classification_logits',
'discriminator_gen_classification_logits')`. -/
def ACGANModel : Schema :=
  ⟨"ACGANModel",
   GANModel.fields ++
    ["one_hot_labels",
     "discriminator_real_classification_logits",
     "discriminator_gen_classification_logits"]⟩

/-- The `GANLoss` namedtuple: two fields. -/
def GANLoss : Schema :=
  ⟨"GANLoss", ["generator_loss", "discriminator_loss"]⟩

/-- The `GANTrainOps` namedtuple: three fields. -/
def GANTrainOps : Schema :=
  ⟨"GANTrainOps",
   ["generator_train_op", "discriminator_train_op", "global_step_inc_op"]⟩

/-- The `GANTrainSteps` namedtuple: two fields. -/
def GANTrainSteps : Schema :=
  ⟨"GANTrainSteps", ["generator_train_steps", "discriminator_train_steps"]⟩

/-- The module's `__all__` export list, in source order. -/
def module_all : List String :=
  ["GANModel", "InfoGANModel", "ACGANModel", "GANLoss", "GANTrainOps",
   "GANTrainSteps"]

/-- All six schemas declared by the module, in declaration order. -/
def allSchemas : List Schema :=
  [GANModel, InfoGANModel, ACGANModel, GANLoss, GANTrainOps, GANTrainSteps]

/-- Every schema's field list has no duplicate names. -/
lemma allSchemas_fields_nodup : ∀ s ∈ allSchemas, s.fields.Nodup := by decide

/-- Looking up the `i`-th field name of a duplicate-free field list returns
index `i`. -/
lemma lookupIdx_get (l : List String) (hnd : l.Nodup) :
    ∀ (i : Nat) (hi : i < l.length), lookupIdx (l.get ⟨i, hi⟩) l = some i := by
  induction l with
  | nil => intro i hi; simp at hi
  | cons f fs ih =>
    intro i hi
    cases i with
    | zero => simp [lookupIdx]
    | succ i =>
      have hmem : fs.get ⟨i, by simpa using Nat.lt_of_succ_lt_succ hi⟩ ∈ fs :=
        List.get_mem _ _ _
      have hne : f ≠ fs.get ⟨i, by simpa using Nat.lt_of_succ_lt_succ hi⟩ := by
        intro hEq
        exact (List.nodup_cons.mp hnd).1 (hEq ▸ hmem)
      simp only [List.get, lookupIdx]
      rw [if_neg hne, ih (List.nodup_cons.mp hnd).2 i (Nat.lt_of_succ_lt_succ hi)]
      rfl

/-- Looking up any member of a field list succeeds with an in-range index. -/
lemma lookupIdx_mem {f : String} {l : List String} (h : f ∈ l) :
    ∃ j, lookupIdx f l = some j ∧ j < l.length := by
  induction l with
  | nil => simp at h
  | cons g gs ih =>
    by_cases hg : g = f
    · exact ⟨0, by simp [lookupIdx, hg], by simp⟩
    · have hf : f ∈ gs := by
        rcases List.mem_cons.mp h with h1 | h1
        · exact absurd h1.symm hg
        · exact h1
      rcases ih hf with ⟨j, hj, hjl⟩
      exact ⟨j + 1, by simp [lookupIdx, hg, hj], by simpa using Nat.succ_lt_succ hjl⟩

/-- Reading the `i`-th declared field of a freshly built instance returns the
`i`-th supplied value. -/
lemma getField_make {α : Type} (s : Schema) (hnd : s.fields.Nodup)
    (vals : List α) (i : Nat) (hi : i < s.fields.length) :
    s.getField ⟨s.name, vals⟩ (s.fields.get ⟨i, hi⟩) = vals.get? i := by
  unfold Schema.getField
  rw [lookupIdx_get s.fields hnd i hi]
  rfl

/-- Successful construction returns exactly the instance carrying the class
name and the supplied values. -/
lemma make_ok {α : Type} {s : Schema} {vals : List α} {t : PyTuple α}
    (h : s.make vals = Except.ok t) :
    t = ⟨s.name, vals⟩ ∧ vals.length = s.fields.length := by
  unfold Schema.make at h
  split at h
  · exact ⟨(Except.ok.injEq _ _ ▸ h).symm, by assumption⟩
  · exact absurd h (by simp)

/-- A run of field reads never changes the instance, and each read returns
what a direct read of the original instance returns. -/
lemma runReads_spec {α : Type} (s : Schema) (t : PyTuple α) (ns : List String) :
    (runReads s t ns).2 = t ∧
      (runReads s t ns).1 = ns.map (fun f => s.getField t f) := by
  induction ns with
  | nil => simp [runReads]
  | cons f fs ih =>
    simp only [runReads, readFieldSt, List.map]
    exact ⟨ih.1, by rw [ih.2]⟩

/-- C1: InfoGANModel's field list equals GANModel's eleven fields followed,
in order, by structured_generator_inputs and predicted_distributions, and for
every thirteen values, constructing an InfoGANModel and reading its first
eleven fields by name yields the same values as a GANModel constructed from
those same first eleven values. -/
theorem infogan_extends_ganmodel {α : Type}
    (a1 a2 a3 a4 a5 a6 a7 a8 a9 a10 a11 a12 a13 : α) :
    InfoGANModel.fields
      = GANModel.fields ++ ["structured_generator_inputs", "predicted_distributions"]
    ∧ InfoGANModel.make [a1, a2, a3, a4, a5, a6, a7, a8, a9, a10, a11, a12, a13]
      = Except.ok ⟨"InfoGANModel", [a1, a2, a3, a4, a5, a6, a7, a8, a9, a10, a11, a12, a13]⟩
    ∧ GANModel.make [a1, a2, a3, a4, a5, a6, a7, a8, a9, a10, a11]
      = Except.ok ⟨"GANModel", [a1, a2, a3, a4, a5, a6, a7, a8, a9, a10, a11]⟩
    ∧ GANModel.fields.map
        (fun f => InfoGANModel.getField
          ⟨"InfoGANModel", [a1, a2, a3, a4, a5, a6, a7, a8, a9, a10, a11, a12, a13]⟩ f)
      = GANModel.fields.map
        (fun f => GANModel.getField
          ⟨"GANModel", [a1, a2, a3, a4, a5, a6, a7, a8, a9, a10, a11]⟩ f) :=
  ⟨rfl, rfl, rfl, rfl⟩

/-- C2: ACGANModel's field list equals GANModel's eleven fields followed, in
order, by one_hot_labels, discriminator_real_classification_logits and
discriminator_gen_classification_logits, and for every fourteen values,
constructing an ACGANModel and reading its first eleven fields by name yields
the same values as a GANModel constructed from those same first eleven
values. -/
theorem acgan_extends_ganmodel {α : Type}
    (a1 a2 a3 a4 a5 a6 a7 a8 a9 a10 a11 a12 a13 a14 : α) :
    ACGANModel.fields
      = GANModel.fields ++
        ["one_hot_labels", "discriminator_real_classification_logits",
         "discriminator_gen_classification_logits"]
    ∧ ACGANModel.make [a1, a2, a3, a4, a5, a6, a7, a8, a9, a10, a11, a12, a13, a14]
      = Except.ok ⟨"ACGANModel", [a1, a2, a3, a4, a5, a6, a7, a8, a9, a10, a11, a12, a13, a14]⟩
    ∧ GANModel.make [a1, a2, a3, a4, a5, a6, a7, a8, a9, a10, a11]
      = Except.ok ⟨"GANModel", [a1, a2, a3, a4, a5, a6, a7, a8, a9, a10, a11]⟩
    ∧ GANModel.fields.map
        (fun f => ACGANModel.getField
          ⟨"ACGANModel", [a1, a2, a3, a4, a5, a6, a7, a8, a9, a10, a11, a12, a13, a14]⟩ f)
      = GANModel.fields.map
        (fun f => GANModel.getField
          ⟨"GANModel", [a1, a2, a3, a4, a5, a6, a7, a8, a9, a10, a11]⟩ f) :=
  ⟨rfl, rfl, rfl, rfl⟩

/-- C8: constructing GANTrainSteps with generator_train_steps = 1 and
discriminator_train_steps = 1 yields an instance whose two fields both read
back as 1. -/
theorem gantrainsteps_one_one :
    GANTrainSteps.make ([1, 1] : List Nat)
      = Except.ok ⟨"GANTrainSteps", [1, 1]⟩
    ∧ GANTrainSteps.getField ⟨"GANTrainSteps", ([1, 1] : List Nat)⟩
        "generator_train_steps" = some 1
    ∧ GANTrainSteps.getField ⟨"GANTrainSteps", ([1, 1] : List Nat)⟩
        "discriminator_train_steps" = some 1 :=
  ⟨rfl, rfl, rfl⟩

/-- C9: equality is not schema-specific: instances of the distinct schemas
GANLoss and GANTrainSteps built from the same two values compare equal,
because namedtuple equality is plain tuple equality over the values. -/
theorem cross_schema_equality {α : Type} [DecidableEq α] (a b : α) :
    GANLoss.name ≠ GANTrainSteps.name
    ∧ GANLoss.fields.length = GANTrainSteps.fields.length
    ∧ GANLoss.make [a, b] = Except.ok ⟨"GANLoss", [a, b]⟩
    ∧ GANTrainSteps.make [a, b] = Except.ok ⟨"GANTrainSteps", [a, b]⟩
    ∧ pyEq (⟨"GANLoss", [a, b]⟩ : PyTuple α) ⟨"GANTrainSteps", [a, b]⟩ = true := by
  refine ⟨by decide, rfl, rfl, rfl, ?_⟩
  simp [pyEq]

/-- C10: the module's export list contains exactly the six schema names
GANModel, InfoGANModel, ACGANModel, GANLoss, GANTrainOps, GANTrainSteps, in
that order, and nothing else. -/
theorem module_exports :
    module_all = allSchemas.map (fun s => s.name)
    ∧ module_all
      = ["GANModel", "InfoGANModel", "ACGANModel", "GANLoss", "GANTrainOps",
         "GANTrainSteps"]
    ∧ module_all.length = 6
    ∧ module_all.Nodup :=
  ⟨rfl, rfl, rfl, by decide⟩

/-- Reading the declared field names of a freshly built instance of the right
arity, in declaration order, yields exactly the supplied values in order. -/
lemma map_getField_make {α : Type} (s : Schema) (hnd : s.fields.Nodup)
    (vals : List α) (hlen : vals.length = s.fields.length) :
    s.fields.map (fun f => s.getField ⟨s.name, vals⟩ f) = vals.map some := by
  apply List.ext
  intro i
  rw [List.get?_map, List.get?_map]
  by_cases hi : i < s.fields.length
  · rw [List.get?_eq_get hi, List.get?_eq_get (show i < vals.length by omega)]
    simp only [Option.map_some']
    rw [getField_make s hnd vals i hi, List.get?_eq_get]
  · rw [List.get?_eq_none.mpr (by omega), List.get?_eq_none.mpr (by omega)]
    rfl

/-- C3: for every schema and every value tuple of the schema's arity,
construction succeeds and reading back each named field returns exactly the
value supplied for that field at construction. -/
theorem construct_read_roundtrip {α : Type} (s : Schema) (hs : s ∈ allSchemas)
    (vals : List α) (h : vals.length = s.fields.length) :
    s.make vals = Except.ok ⟨s.name, vals⟩
    ∧ ∀ (i : Nat) (hi : i < s.fields.length),
        s.getField ⟨s.name, vals⟩ (s.fields.get ⟨i, hi⟩) = vals.get? i := by
  constructor
  · unfold Schema.make
    rw [if_pos h]
  · intro i hi
    exact getField_make s (allSchemas_fields_nodup s hs) vals i hi

/-- Witness for C3 at a concrete input: GANLoss built from the two values 5
and 7 reads its first field back as 5. -/
theorem construct_read_roundtrip_witness :
    GANLoss.getField ⟨"GANLoss", ([5, 7] : List Nat)⟩ "generator_loss" = some 5 := by
  have h := (construct_read_roundtrip GANLoss (by decide) ([5, 7] : List Nat)
    (by decide)).2 0 (by decide)
  simpa using h

/-- C4: two instances of the same schema are equal exactly when all
corresponding fields are equal. -/
theorem same_schema_equality {α : Type} [DecidableEq α] (s : Schema)
    (hs : s ∈ allSchemas) (t1 t2 : PyTuple α)
    (h1 : t1.schema = s.name) (h2 : t2.schema = s.name)
    (l1 : t1.values.length = s.fields.length)
    (l2 : t2.values.length = s.fields.length) :
    pyEq t1 t2 = true ↔ ∀ i : Nat, t1.values.get? i = t2.values.get? i := by
  simp only [pyEq, decide_eq_true_eq]
  exact ⟨fun h i => by rw [h], List.ext⟩

/-- Witness for C4 at a concrete input: two GANTrainSteps instances built
from the same values compare equal. -/
theorem same_schema_equality_witness :
    pyEq (⟨"GANTrainSteps", ([1, 2] : List Nat)⟩ : PyTuple Nat)
      ⟨"GANTrainSteps", [1, 2]⟩ = true :=
  (same_schema_equality GANTrainSteps (by decide) _ _ rfl rfl (by decide)
    (by decide)).mpr (fun _ => rfl)

/-- C5: construction fails exactly when the number of supplied values differs
from the schema's field count, and no other operation fails: reading any
declared field of a successfully constructed instance always yields a value,
and equality is total. -/
theorem arity_error_only {α : Type} [DecidableEq α] (s : Schema)
    (hs : s ∈ allSchemas) (vals : List α) :
    ((s.make vals).isOk = false ↔ vals.length ≠ s.fields.length)
    ∧ (∀ t : PyTuple α, s.make vals = Except.ok t →
        ∀ f ∈ s.fields, (s.getField t f).isSome = true)
    ∧ (∀ t1 t2 : PyTuple α, pyEq t1 t2 = true ∨ pyEq t1 t2 = false) := by
  refine ⟨?_, ?_, fun t1 t2 => by cases pyEq t1 t2 <;> simp⟩
  · unfold Schema.make
    split
    · simp_all [Except.isOk, Except.toBool]
    · simp_all [Except.isOk, Except.toBool]
  · intro t ht f hf
    rcases make_ok ht with ⟨rfl, hlen⟩
    rcases lookupIdx_mem hf with ⟨j, hj, hjl⟩
    unfold Schema.getField
    rw [hj]
    simp only [Option.some_bind]
    rw [List.get?_eq_get (show j < vals.length by omega)]
    rfl

/-- Witness for C5 at a concrete input: calling the two-field GANLoss
constructor with three values fails. -/
theorem arity_error_only_witness :
    (GANLoss.make ([1, 2, 3] : List Nat)).isOk = false :=
  (arity_error_only GANLoss (by decide) ([1, 2, 3] : List Nat)).1.mpr (by decide)

/-- C6: instances are immutable: a successfully constructed instance carries
exactly the construction values, any sequence of field reads leaves the
instance unchanged, and every read in the sequence returns the value
determined at construction. -/
theorem instances_immutable {α : Type} (s : Schema) (vals : List α)
    (t : PyTuple α) (h : s.make vals = Except.ok t) (ns : List String) :
    t = ⟨s.name, vals⟩
    ∧ (runReads s t ns).2 = t
    ∧ (runReads s t ns).1 = ns.map (fun f => s.getField ⟨s.name, vals⟩ f) := by
  rcases make_ok h with ⟨rfl, _⟩
  exact ⟨rfl, (runReads_spec s _ ns).1, (runReads_spec s _ ns).2⟩

/-- Witness for C6 at a concrete input: reading the two GANLoss fields twice
leaves the instance unchanged and returns the construction values. -/
theorem instances_immutable_witness :
    (⟨"GANLoss", [3, 4]⟩ : PyTuple Nat) = ⟨"GANLoss", [3, 4]⟩
    ∧ (runReads GANLoss (⟨"GANLoss", ([3, 4] : List Nat)⟩ : PyTuple Nat)
        ["generator_loss", "discriminator_loss", "generator_loss"]).2
      = ⟨"GANLoss", [3, 4]⟩
    ∧ (runReads GANLoss (⟨"GANLoss", ([3, 4] : List Nat)⟩ : PyTuple Nat)
        ["generator_loss", "discriminator_loss", "generator_loss"]).1
      = ["generator_loss", "discriminator_loss", "generator_loss"].map
          (fun f => GANLoss.getField ⟨"GANLoss", [3, 4]⟩ f) :=
  instances_immutable GANLoss [3, 4] _ rfl _

/-- C7: field order is stable and matches declaration order: any two
constructions from the same values yield the same instance, and iterating
the declared field names in order reads back exactly the stored values in
positional order. -/
theorem field_order_stable {α : Type} (s : Schema) (hs : s ∈ allSchemas)
    (vals : List α) (t : PyTuple α) (h : s.make vals = Except.ok t) :
    t.values = vals
    ∧ s.make vals = Except.ok t
    ∧ s.fields.map (fun f => s.getField t f) = vals.map some := by
  rcases make_ok h with ⟨rfl, hlen⟩
  exact ⟨rfl, h, map_getField_make s (allSchemas_fields_nodup s hs) vals hlen⟩

/-- Witness for C7 at a concrete input: iterating GANTrainOps' three field
names on an instance built from 1, 2, 3 yields those values in order. -/
theorem field_order_stable_witness :
    (⟨"GANTrainOps", [1, 2, 3]⟩ : PyTuple Nat).values = [1, 2, 3]
    ∧ GANTrainOps.make ([1, 2, 3] : List Nat)
      = Except.ok ⟨"GANTrainOps", [1, 2, 3]⟩
    ∧ GANTrainOps.fields.map
        (fun f => GANTrainOps.getField (⟨"GANTrainOps", [1, 2, 3]⟩ : PyTuple Nat) f)
      = ([1, 2, 3] : List Nat).map some :=
  field_order_stable GANTrainOps (by decide) [1, 2, 3] _ rfl

/-- Witness for C1 at a concrete input: the first eleven fields of an
InfoGANModel built from the values 1..13 read back like a GANModel built
from 1..11. -/
theorem infogan_extends_ganmodel_witness :
    GANModel.fields.map
        (fun f => InfoGANModel.getField
          ⟨"InfoGANModel", ([1, 2, 3, 4, 5, 6, 7, 8, 9, 10, 11, 12, 13] : List Nat)⟩ f)
      = GANModel.fields.map
        (fun f => GANModel.getField
          ⟨"GANModel", ([1, 2, 3, 4, 5, 6, 7, 8, 9, 10, 11] : List Nat)⟩ f) :=
  (infogan_extends_ganmodel 1 2 3 4 5 6 7 8 9 10 11 12 13).2.2.2

/-- Witness for C2 at a concrete input: the first eleven fields of an
ACGANModel built from the values 1..14 read back like a GANModel built from
1..11. -/
theorem acgan_extends_ganmodel_witness :
    GANModel.fields.map
        (fun f => ACGANModel.getField
          ⟨"ACGANModel", ([1, 2, 3, 4, 5, 6, 7, 8, 9, 10, 11, 12, 13, 14] : List Nat)⟩ f)
      = GANModel.fields.map
        (fun f => GANModel.getField
          ⟨"GANModel", ([1, 2, 3, 4, 5, 6, 7, 8, 9, 10, 11] : List Nat)⟩ f) :=
  (acgan_extends_ganmodel 1 2 3 4 5 6 7 8 9 10 11 12 13 14).2.2.2

/-- Witness for C9 at a concrete input: GANLoss(1, 2) and GANTrainSteps(1, 2)
compare equal. -/
theorem cross_schema_equality_witness :
    pyEq (⟨"GANLoss", ([1, 2] : List Nat)⟩ : PyTuple Nat)
      ⟨"GANTrainSteps", [1, 2]⟩ = true :=
  (cross_schema_equality (1 : Nat) 2).2.2.2.2
